import Mathlib

/-!
Verification of the st_proxy forwarding pipeline (main.go).

Strings are modelled as `List Char`. The path rewriting, header handling,
error classification, transport configuration and response inspection of
the Go source are embedded as executable Lean definitions, translated
line by line from `proxy.Director`, `proxy.Transport`,
`proxy.ModifyResponse` and `proxy.ErrorHandler`.
-/

/-- Convert a Lean string literal to the `List Char` representation used
throughout this development. -/
def str (s : String) : List Char := s.data

/-- Go `strings.HasPrefix(s, pre)`. -/
def goHasPre (s pre : List Char) : Bool := pre.isPrefixOf s

/-- Go `strings.HasSuffix(s, suf)`. -/
def goHasSuf (s suf : List Char) : Bool := suf.isSuffixOf s

/-- Go `strings.TrimPrefix(s, pre)`: drops `pre` from the front of `s`
when `s` starts with it, otherwise returns `s` unchanged. -/
def goTrimPre (s pre : List Char) : List Char :=
  if pre.isPrefixOf s then s.drop pre.length else s

/-- Go `strings.Contains(s, sub)`. -/
def goContains (s sub : List Char) : Bool :=
  match s with
  | [] => sub.isEmpty
  | c :: t => sub.isPrefixOf (c :: t) || goContains t sub

/-- The `originalPath` computed by `proxy.Director` (main.go lines 84-92):
when the inbound path starts with the frontend API path, the front part is
removed and an empty remainder becomes "/"; otherwise the path passes
through unchanged. -/
def strippedPath (pfx p : List Char) : List Char :=
  if goHasPre p pfx then
    let r := goTrimPre p pfx
    if r = [] then ['/'] else r
  else p

/-- The outbound path built by `proxy.Director` (main.go line 95):
`backend.Path + strings.TrimPrefix(originalPath, "/")`. -/
def rewritePath (pfx backendPath p : List Char) : List Char :=
  backendPath ++ goTrimPre (strippedPath pfx p) ['/']

/-- An HTTP header collection: canonical header name to ordered value list
(Go `http.Header`). -/
abbrev Header := List Char → List (List Char)

/-- Go `http.Header.Del`. -/
def hDel (h : Header) (k : List Char) : Header :=
  fun k2 => if k2 = k then [] else h k2

/-- Go `http.Header.Set`: replaces all values of `k` by the single value
`v`. -/
def hSet (h : Header) (k v : List Char) : Header :=
  fun k2 => if k2 = k then [v] else h k2

def hXFHost : List Char := str "X-Forwarded-Host"
def hXRealIP : List Char := str "X-Real-IP"
def hXFFor : List Char := str "X-Forwarded-For"
def hXFProto : List Char := str "X-Forwarded-Proto"
def hConnection : List Char := str "Connection"
def hSetCookie : List Char := str "Set-Cookie"
def hCookie : List Char := str "Cookie"

/-- The header mutation performed by `proxy.Director` (main.go lines
100-107): delete the four forwarding headers, then set
`Connection: close`. -/
def sanitizeHeader (h : Header) : Header :=
  hSet (hDel (hDel (hDel (hDel h hXFHost) hXRealIP) hXFFor) hXFProto)
    hConnection (str "close")

/-- A parsed URL as used by the proxy (`net/url.URL` fields the code
touches). -/
structure URL where
  scheme : List Char
  host : List Char
  path : List Char
  query : List Char

/-- An HTTP request as used by the proxy (`http.Request` fields the code
touches). -/
structure Request where
  method : List Char
  url : URL
  host : List Char
  header : Header
  body : List Nat

/-- `req.URL.String()` as rendered for the fields this proxy populates. -/
def urlString (u : URL) : List Char :=
  u.scheme ++ str "://" ++ u.host ++ u.path ++
    (if u.query = [] then [] else '?' :: u.query)

/-- `proxy.Director` (main.go lines 76-112): rewrites scheme, host, path
and Host field to target the backend, sanitizes headers, and leaves
method, query and body untouched. -/
def director (backend : URL) (pfx : List Char) (req : Request) : Request :=
  { method := req.method
    url := { scheme := backend.scheme
             host := backend.host
             path := rewritePath pfx backend.path req.url.path
             query := req.url.query }
    host := backend.host
    header := sanitizeHeader req.header
    body := req.body }

/-- `proxy.ErrorHandler` (main.go lines 161-172): substring-classify the
failure description into a status code and body text. -/
def errorHandler (desc : List Char) : Nat × List Char :=
  if goContains desc (str "timeout") then (504, str "Gateway Timeout")
  else if goContains desc (str "connection refused") then
    (503, str "Service Unavailable")
  else (502, str "Bad Gateway")

/-- One nanosecond count per Go `time.Second`. -/
def timeSecond : Nat := 1000000000

/-- The `http.Transport` fields set by the proxy (main.go lines 115-132);
durations are in nanoseconds as in Go. -/
structure Transport where
  insecureSkipVerify : Bool
  responseHeaderTimeout : Nat
  idleConnTimeout : Nat
  maxIdleConns : Nat
  maxIdleConnsPerHost : Nat
  dialTimeout : Nat
  dialKeepAlive : Nat
  forceAttemptHTTP2 : Bool

/-- The transport configuration literally as constructed in main.go. -/
def proxyTransport : Transport :=
  { insecureSkipVerify := true
    responseHeaderTimeout := 60 * timeSecond
    idleConnTimeout := 120 * timeSecond
    maxIdleConns := 100
    maxIdleConnsPerHost := 10
    dialTimeout := 30 * timeSecond
    dialKeepAlive := 30 * timeSecond
    forceAttemptHTTP2 := true }

/-- A backend HTTP response (`http.Response` fields the code touches). -/
structure BackendResponse where
  status : Nat
  statusText : List Char
  header : Header
  body : List Nat

/-- What `proxy.ModifyResponse` leaves behind: the response handed on to
the caller, the log events it emitted, and the error it returned. -/
structure InspectResult where
  resp : BackendResponse
  events : List (List Char × List Char)
  err : Option (List Char)

/-- The fixed header names logged by `proxy.ModifyResponse` (main.go line
148). -/
def importantHeaders : List (List Char) :=
  [str "Content-Type", str "Content-Length", str "Cache-Control",
   str "Access-Control-Allow-Origin"]

/-- `proxy.ModifyResponse` (main.go lines 135-158): log the status, every
Set-Cookie value, and the values of the important headers; return `nil`
(no error) and do not touch the response. -/
def modifyResponse (resp : BackendResponse) : InspectResult :=
  { resp := resp
    events :=
      (str "status", resp.statusText) ::
      ((resp.header hSetCookie).map (fun c => (hSetCookie, c)) ++
        (importantHeaders.map
          (fun hd => (resp.header hd).map (fun v => (hd, v)))).flatten)
    err := none }

/-- Concrete config of the end-to-end scenario: backend
`https://example.com/v1/`. -/
def backendEx : URL :=
  { scheme := str "https", host := str "example.com"
    path := str "/v1/", query := [] }

/-- Concrete inbound request `GET /api/users?x=1` of the end-to-end
scenario. -/
def reqEx : Request :=
  { method := str "GET"
    url := { scheme := str "http", host := str "localhost:8080"
             path := str "/api/users", query := str "x=1" }
    host := str "localhost:8080"
    header := fun _ => []
    body := [] }

/-- Concrete inbound request carrying one Cookie header, used to witness
header pass-through. -/
def reqCookie : Request :=
  { method := str "GET"
    url := { scheme := str "http", host := str "localhost:8080"
             path := str "/api/users", query := [] }
    host := str "localhost:8080"
    header := fun k => if k = hCookie then [str "session=abc123"] else []
    body := [] }

/-- Concrete inbound request carrying an X-Forwarded-For header, used to
refute verbatim copying of all non-Connection headers. -/
def reqXFF : Request :=
  { method := str "GET"
    url := { scheme := str "http", host := str "localhost:8080"
             path := str "/api/users", query := [] }
    host := str "localhost:8080"
    header := fun k => if k = hXFFor then [str "1.2.3.4"] else []
    body := [] }

/-! Helper lemmas (shared; not claim theorems). -/

theorem isPrefixOf_append_left (l t : List Char) :
    l.isPrefixOf (l ++ t) = true := by
  induction l with
  | nil => simp [List.isPrefixOf]
  | cons a as ih => simp [List.isPrefixOf, ih]

theorem goTrimPre_root_norm (r : List Char) :
    goTrimPre (if r = [] then ['/'] else r) ['/'] = goTrimPre r ['/'] := by
  by_cases h : r = []
  · subst h; decide
  · simp [h]

theorem goTrimPre_of_pre (s pre : List Char) (h : pre.isPrefixOf s = true) :
    goTrimPre s pre = s.drop pre.length := by
  simp [goTrimPre, h]

theorem hDel_self (h : Header) (k : List Char) : hDel h k k = [] := by
  simp [hDel]

theorem hDel_ne (h : Header) (k k2 : List Char) (hne : k2 ≠ k) :
    hDel h k k2 = h k2 := by
  simp [hDel, hne]

theorem hSet_self (h : Header) (k v : List Char) : hSet h k v k = [v] := by
  simp [hSet]

theorem hSet_ne (h : Header) (k v k2 : List Char) (hne : k2 ≠ k) :
    hSet h k v k2 = h k2 := by
  simp [hSet, hne]

theorem sanitizeHeader_other (h : Header) (name : List Char)
    (n1 : name ≠ hXFHost) (n2 : name ≠ hXRealIP) (n3 : name ≠ hXFFor)
    (n4 : name ≠ hXFProto) (n5 : name ≠ hConnection) :
    sanitizeHeader h name = h name := by
  rw [sanitizeHeader, hSet_ne _ _ _ _ n5, hDel_ne _ _ _ n4, hDel_ne _ _ _ n3,
    hDel_ne _ _ _ n2, hDel_ne _ _ _ n1]

/-- Claim C1: for every inbound path starting with the frontend API path,
the rewritten path equals the backend base path concatenated with the
remainder after removing that front part and stripping one leading slash;
when the inbound path equals the frontend API path exactly, the result is
the backend base path itself, which is nonempty whenever the base path
is. -/
theorem c1_rewrite_under_front (pfx bp p : List Char)
    (h : goHasPre p pfx = true) :
    rewritePath pfx bp p = bp ++ goTrimPre (p.drop pfx.length) ['/']
    ∧ (p = pfx → rewritePath pfx bp p = bp)
    ∧ (p = pfx → bp ≠ [] → rewritePath pfx bp p ≠ []) := by
  have h' : pfx.isPrefixOf p = true := h
  have hmain :
      rewritePath pfx bp p = bp ++ goTrimPre (p.drop pfx.length) ['/'] := by
    rw [rewritePath, strippedPath]
    simp only [h, if_true, goTrimPre_of_pre p pfx h', goTrimPre_root_norm]
  have hroot : p = pfx → rewritePath pfx bp p = bp := by
    intro hp
    subst hp
    rw [hmain, List.drop_length]
    have hz : goTrimPre [] ['/'] = [] := by decide
    rw [hz, List.append_nil]
  refine ⟨hmain, hroot, ?_⟩
  intro hp hbp
  rw [hroot hp]
  exact hbp

/-- Witness for C1 at the frontend API path "/api/", backend base path
"/v1/", inbound path "/api/": the rewrite yields the backend root path. -/
theorem c1_rewrite_under_front_witness :
    rewritePath (str "/api/") (str "/v1/") (str "/api/") = str "/v1/"
    ∧ rewritePath (str "/api/") (str "/v1/") (str "/api/") ≠ [] := by
  have h := c1_rewrite_under_front (str "/api/") (str "/v1/") (str "/api/")
    (by decide)
  exact ⟨h.2.1 rfl, h.2.2 rfl (by decide)⟩

/-- Counterexample for C6 as stated: the inbound path "/api///x" (whose
remainder after removing "/api/" is "//x") is rewritten to "/v1//x", which
has a double slash at the join point. -/
theorem c6_counterexample :
    rewritePath (str "/api/") (str "/v1/") (str "/api///x") = str "/v1//x"
    ∧ goContains (rewritePath (str "/api/") (str "/v1/") (str "/api///x"))
        (str "//") = true := by
  exact ⟨by decide, by decide⟩

/-- Claim C6 (amended): whenever the backend base path ends in a single
"/" (written `b0 ++ ['/']` with `b0` not ending in "/") and the stripped
remainder does not itself start with "//", the joined outbound path is
`b0 ++ "/" ++ r` where `r` does not start with "/": exactly one slash
separates the backend base path from the remainder. -/
theorem c6_single_slash_join (pfx b0 p : List Char)
    (hb : b0.getLast? ≠ some '/')
    (hr : goHasPre (strippedPath pfx p) ['/', '/'] = false) :
    ∃ r, rewritePath pfx (b0 ++ ['/']) p = b0 ++ '/' :: r
      ∧ b0.getLast? ≠ some '/'
      ∧ goHasPre r ['/'] = false := by
  refine ⟨goTrimPre (strippedPath pfx p) ['/'], ?_, hb, ?_⟩
  · rw [rewritePath, List.append_assoc]
    rfl
  · cases hsp : strippedPath pfx p with
    | nil => decide
    | cons c t =>
      rw [hsp] at hr
      by_cases hc : c = '/'
      · subst hc
        have hrt : (['/'] : List Char).isPrefixOf t = false := by
          simpa [goHasPre, List.isPrefixOf] using hr
        have htrim : goTrimPre ('/' :: t) ['/'] = t := by
          simp [goTrimPre, List.isPrefixOf]
        rw [htrim]
        simpa [goHasPre] using hrt
      · have hcc : (('/' : Char) == c) = false := by
          simp [hc]
          intro hcontra
          exact hc hcontra.symm
        have htrim : goTrimPre (c :: t) ['/'] = c :: t := by
          simp [goTrimPre, List.isPrefixOf, hcc]
        rw [htrim]
        simp [goHasPre, List.isPrefixOf, hcc]

/-- Witness for C6 (amended) at "/api/", base "/v1" ++ "/", inbound
"/api/users". -/
theorem c6_single_slash_join_witness :
    ∃ r, rewritePath (str "/api/") (str "/v1" ++ ['/']) (str "/api/users")
        = str "/v1" ++ '/' :: r
      ∧ (str "/v1").getLast? ≠ some '/'
      ∧ goHasPre r ['/'] = false :=
  c6_single_slash_join (str "/api/") (str "/v1") (str "/api/users")
    (by decide) (by decide)

/-- Claim C9: every rewritten outbound path has the backend base path as
a front part, and an inbound path that does not start with the frontend
API path is grafted onto it as backend base path plus the inbound path
with one leading slash stripped. -/
theorem c9_graft_non_front (pfx bp p : List Char) :
    bp.isPrefixOf (rewritePath pfx bp p) = true
    ∧ (goHasPre p pfx = false →
        rewritePath pfx bp p = bp ++ goTrimPre p ['/']) := by
  refine ⟨isPrefixOf_append_left bp _, ?_⟩
  intro h
  rw [rewritePath, strippedPath, h]
  simp

/-- Witness for C9 at the non-front inbound path "/metrics". -/
theorem c9_graft_non_front_witness :
    rewritePath (str "/api/") (str "/v1/") (str "/metrics")
      = str "/v1/" ++ goTrimPre (str "/metrics") ['/'] :=
  (c9_graft_non_front (str "/api/") (str "/v1/") (str "/metrics")).2
    (by decide)

/-- Counterexample for C2 as stated: the description
"dial tcp: connection refused after timeout" contains "connection
refused", yet the handler answers 504, not 503, because the "timeout"
test runs first. -/
theorem c2_counterexample :
    goContains (str "dial tcp: connection refused after timeout")
      (str "connection refused") = true
    ∧ (errorHandler (str "dial tcp: connection refused after timeout")).1
        = 504
    ∧ (errorHandler (str "dial tcp: connection refused after timeout")).1
        ≠ 503 := by
  exact ⟨by decide, by decide, by decide⟩

/-- Claim C2 (amended): a description containing "timeout" yields 504
Gateway Timeout; one containing "connection refused" but not "timeout"
yields 503 Service Unavailable; one containing neither yields 502 Bad
Gateway. -/
theorem c2_error_classification (s : List Char) :
    (goContains s (str "timeout") = true →
      errorHandler s = (504, str "Gateway Timeout"))
    ∧ (goContains s (str "timeout") = false →
        goContains s (str "connection refused") = true →
        errorHandler s = (503, str "Service Unavailable"))
    ∧ (goContains s (str "timeout") = false →
        goContains s (str "connection refused") = false →
        errorHandler s = (502, str "Bad Gateway")) := by
  refine ⟨fun h1 => ?_, fun h1 h2 => ?_, fun h1 h2 => ?_⟩
  · simp [errorHandler, h1]
  · simp [errorHandler, h1, h2]
  · simp [errorHandler, h1, h2]

/-- Witness for C2 (amended) on the three regimes, at
"dial tcp 10.0.0.1:443: connect: connection refused". -/
theorem c2_error_classification_witness :
    errorHandler (str "dial tcp 10.0.0.1:443: connect: connection refused")
      = (503, str "Service Unavailable") :=
  (c2_error_classification
    (str "dial tcp 10.0.0.1:443: connect: connection refused")).2.1
    (by decide) (by decide)

/-- Claim C10: "timeout" is tested before "connection refused", so a
description containing both yields 504 and never 503, and the handler is
total, answering one of 504, 503, 502 for every description. -/
theorem c10_priority_and_totality (s : List Char) :
    (goContains s (str "timeout") = true →
      goContains s (str "connection refused") = true →
      (errorHandler s).1 = 504 ∧ (errorHandler s).1 ≠ 503)
    ∧ ((errorHandler s).1 = 504 ∨ (errorHandler s).1 = 503
        ∨ (errorHandler s).1 = 502) := by
  constructor
  · intro h1 _
    simp [errorHandler, h1]
  · rw [errorHandler]
    by_cases h1 : goContains s (str "timeout") = true
    · simp [h1]
    · simp only [Bool.not_eq_true] at h1
      by_cases h2 : goContains s (str "connection refused") = true
      · simp [h1, h2]
      · simp only [Bool.not_eq_true] at h2
        simp [h1, h2]

/-- Witness for C10 at a description containing both substrings. -/
theorem c10_priority_and_totality_witness :
    (errorHandler (str "connection refused: i/o timeout")).1 = 504
    ∧ (errorHandler (str "connection refused: i/o timeout")).1 ≠ 503 :=
  (c10_priority_and_totality (str "connection refused: i/o timeout")).1
    (by decide) (by decide)

/-- Counterexample for C3 as stated: an inbound X-Forwarded-For header is
not copied verbatim to the outbound request (it is deleted), although
X-Forwarded-For is neither the Connection header nor the Host field. -/
theorem c3_counterexample :
    reqXFF.header hXFFor = [str "1.2.3.4"]
    ∧ (director backendEx (str "/api/") reqXFF).header hXFFor = []
    ∧ hXFFor ≠ hConnection := by
  exact ⟨by decide, by decide, by decide⟩

/-- Claim C3 (amended): every header other than the four forwarding
headers and Connection is copied verbatim, values and order intact (in
particular every Cookie header); Connection is set to exactly "close",
overriding any inbound value; and the outbound Host is the backend's
host. -/
theorem c3_header_pass_through (b : URL) (pfx : List Char) (r : Request)
    (name : List Char)
    (n1 : name ≠ hXFHost) (n2 : name ≠ hXRealIP) (n3 : name ≠ hXFFor)
    (n4 : name ≠ hXFProto) (n5 : name ≠ hConnection) :
    (director b pfx r).header name = r.header name
    ∧ (director b pfx r).header hConnection = [str "close"]
    ∧ (director b pfx r).host = b.host := by
  refine ⟨?_, ?_, rfl⟩
  · exact sanitizeHeader_other r.header name n1 n2 n3 n4 n5
  · show sanitizeHeader r.header hConnection = [str "close"]
    rw [sanitizeHeader, hSet_self]

/-- Witness for C3 (amended): the Cookie header of `reqCookie` reaches
the outbound request byte-identical, Connection is "close", and Host is
the backend's. -/
theorem c3_header_pass_through_witness :
    (director backendEx (str "/api/") reqCookie).header hCookie
      = reqCookie.header hCookie
    ∧ (director backendEx (str "/api/") reqCookie).header hConnection
      = [str "close"]
    ∧ (director backendEx (str "/api/") reqCookie).host = backendEx.host :=
  c3_header_pass_through backendEx (str "/api/") reqCookie hCookie
    (by decide) (by decide) (by decide) (by decide) (by decide)

/-- Claim C4: for every inbound request the four forwarding headers are
absent from the outbound request built by the Director. -/
theorem c4_forwarding_headers_absent (b : URL) (pfx : List Char)
    (r : Request) :
    (director b pfx r).header hXFHost = []
    ∧ (director b pfx r).header hXRealIP = []
    ∧ (director b pfx r).header hXFFor = []
    ∧ (director b pfx r).header hXFProto = [] := by
  refine ⟨?_, ?_, ?_, ?_⟩
  · show sanitizeHeader r.header hXFHost = []
    rw [sanitizeHeader, hSet_ne _ _ _ _ (by decide), hDel_ne _ _ _ (by decide),
      hDel_ne _ _ _ (by decide), hDel_ne _ _ _ (by decide), hDel_self]
  · show sanitizeHeader r.header hXRealIP = []
    rw [sanitizeHeader, hSet_ne _ _ _ _ (by decide), hDel_ne _ _ _ (by decide),
      hDel_ne _ _ _ (by decide), hDel_self]
  · show sanitizeHeader r.header hXFFor = []
    rw [sanitizeHeader, hSet_ne _ _ _ _ (by decide), hDel_ne _ _ _ (by decide),
      hDel_self]
  · show sanitizeHeader r.header hXFProto = []
    rw [sanitizeHeader, hSet_ne _ _ _ _ (by decide), hDel_self]

/-- Claim C5: the outbound URL scheme and host always equal the
backend's, method and query string pass through unchanged; concretely,
with frontend "/api/" and backend https://example.com/v1/, the inbound
GET /api/users?x=1 becomes the outbound GET
https://example.com/v1/users?x=1. -/
theorem c5_target_and_query (b : URL) (pfx : List Char) (r : Request) :
    ((director b pfx r).url.scheme = b.scheme
      ∧ (director b pfx r).url.host = b.host
      ∧ (director b pfx r).url.query = r.url.query
      ∧ (director b pfx r).method = r.method
      ∧ (director b pfx r).body = r.body)
    ∧ (director backendEx (str "/api/") reqEx).method = str "GET"
    ∧ urlString (director backendEx (str "/api/") reqEx).url
      = str "https://example.com/v1/users?x=1" := by
  exact ⟨⟨rfl, rfl, rfl, rfl, rfl⟩, by decide, by decide⟩

/-- Claim C7: the response inspector returns no error and hands the
backend response on unchanged: status, every header (Set-Cookie values in
original order included) and body reach the caller exactly as received. -/
theorem c7_inspector_frame (resp : BackendResponse) :
    (modifyResponse resp).resp = resp
    ∧ (modifyResponse resp).err = none
    ∧ (modifyResponse resp).resp.status = resp.status
    ∧ (∀ name, (modifyResponse resp).resp.header name = resp.header name)
    ∧ (modifyResponse resp).resp.header hSetCookie = resp.header hSetCookie
    ∧ (modifyResponse resp).resp.body = resp.body := by
  exact ⟨rfl, rfl, rfl, fun _ => rfl, rfl, rfl⟩

/-- Claim C8: the transport is configured with exactly the fixed values
of main.go: certificate checks off, 60 s response-header timeout, 120 s
idle-connection timeout, 100 idle connections total, 10 per host, 30 s
dial timeout and 30 s keep-alive, and opportunistic HTTP/2. -/
theorem c8_transport_policy :
    proxyTransport.insecureSkipVerify = true
    ∧ proxyTransport.responseHeaderTimeout = 60 * timeSecond
    ∧ proxyTransport.idleConnTimeout = 120 * timeSecond
    ∧ proxyTransport.maxIdleConns = 100
    ∧ proxyTransport.maxIdleConnsPerHost = 10
    ∧ proxyTransport.dialTimeout = 30 * timeSecond
    ∧ proxyTransport.dialKeepAlive = 30 * timeSecond
    ∧ proxyTransport.forceAttemptHTTP2 = true
    ∧ proxyTransport.responseHeaderTimeout = 60000000000
    ∧ proxyTransport.idleConnTimeout = 120000000000 := by
  refine ⟨rfl, rfl, rfl, rfl, rfl, rfl, rfl, rfl, by decide, by decide⟩
